/-
Verification of the RedactFlow detection-and-redaction pipeline.

Shallow embedding of the pipeline code:
  src/nodes/detector_node.py, evaluator_node.py, hitl_node.py,
  orchestrator.py, searcher_node.py, redactor_node.py,
  manual_redactor_node.py and the manual-rectangle capture in src/app.py.

Conventions of the embedding:
- Coordinates are rationals (the source uses Python floats; all claims are
  about min/max selection and exact scaling, which ℚ captures faithfully).
- The external reasoning provider (Azure LLM), the OCR provider and the
  knowledge-search provider are modelled as oracle parameters; an oracle
  value of none models the provider call raising an exception (every call
  site wraps the call in try/except).
- The mutable Python dict state is a record; a dict key that may be absent
  and whose absence is observable is an Option field; keys always read
  through .get with a default are plain fields with that default.
- File-system effects are modelled by returning the list of paths written;
  the cwd prefix of output paths is abstracted away (paths are relative).
-/
import Mathlib

/-- Axis-aligned bounding box in page-point space, mirroring the BBox
TypedDict of src/nodes/state.py. -/
structure BBox where
  x0 : ℚ
  y0 : ℚ
  x1 : ℚ
  y1 : ℚ
  deriving DecidableEq, Repr

/-- Extracted element, mirroring PdfElement of src/nodes/state.py. -/
structure PdfElement where
  element_id : Int
  page_number : Int
  content : String
  bbox : BBox
  deriving DecidableEq, Repr

/-- Detector output item, mirroring SensitiveItem of src/nodes/state.py;
manual rectangles built in src/app.py have the same shape. -/
structure SensItem where
  page_number : Int
  content : String
  reason : String
  bbox : BBox
  deriving DecidableEq, Repr

/-- Output schema of the first (content-analysis) LLM call in
src/nodes/detector_node.py (SensitiveContentItem). -/
structure ContentItem where
  sensitive_content : String
  page_num : Int
  reason : String
  deriving DecidableEq, Repr

/-- Output schema of the second (coordinate-mapping) LLM call in
src/nodes/detector_node.py (CoordinateMappedItem). -/
structure CoordItem where
  page_number : Int
  content : String
  reason : String
  element_ids : List Int
  deriving DecidableEq, Repr

/-- Output schema of the evaluator LLM call in src/nodes/evaluator_node.py
(EvaluationResult). -/
structure EvalVerdict where
  issues_found : Bool
  missing_sensitive_data : List String
  incorrect_detections : List String
  feedback_message : String
  deriving DecidableEq, Repr

/-- Output schema of the orchestrator routing LLM call in
src/nodes/orchestrator.py (OrchestratorDecision). -/
structure OrchestratorDecision where
  next_node : String
  sensitive_descriptions : List String
  search_query : Option String
  deriving DecidableEq, Repr

/-- Pipeline record threaded through all stages, mirroring SanitizerState
of src/nodes/state.py. The keys evaluator_cycles and max_evaluator_cycles
are Options because the evaluator observes their absence; list-valued keys
read only through .get with default [] are plain lists. -/
structure PState where
  user_prompt : String := ""
  pdf_path : String := ""
  sensitive_data_description : List String := []
  search_query : Option String := none
  page_level_pdf_elements : List PdfElement := []
  word_level_pdf_elements : List PdfElement := []
  sensitive_data : List SensItem := []
  evaluator_cycles : Option Nat := none
  max_evaluator_cycles : Option Nat := none
  preview_pdf_path : Option String := none
  final_pdf_path : Option String := none
  next_node : Option String := none
  user_approval : Option String := none
  deriving DecidableEq, Repr

/-- Leading- and trailing-whitespace removal on a character list. -/
def pyStripChars (l : List Char) : List Char :=
  ((l.dropWhile Char.isWhitespace).reverse.dropWhile Char.isWhitespace).reverse

/-- Model of Python str.strip() with no argument (structural, so that the
kernel can evaluate it on literals). -/
def pyStrip (s : String) : String :=
  String.mk (pyStripChars s.data)

/-- Model of Python str.lower() for the ASCII unit names used here. -/
def pyLower (s : String) : String :=
  String.mk (s.data.map Char.toLower)

/-- Minimum of a nonempty Python list via min(xs); the [] case is never
reached at call sites (the source would raise there). -/
def listMin : List ℚ → ℚ
  | [] => 0
  | x :: xs => xs.foldl min x

/-- Maximum of a nonempty Python list via max(xs). -/
def listMax : List ℚ → ℚ
  | [] => 0
  | x :: xs => xs.foldl max x

/-- Entries at even indices: polygon[i] for i in range(0, len, 2). -/
def evenEntries : List ℚ → List ℚ
  | x :: _ :: rest => x :: evenEntries rest
  | [x] => [x]
  | [] => []

/-- Entries at odd indices: polygon[i+1] for i in range(0, len, 2); for an
odd-length polygon the source raises IndexError, so theorems about the
normalizer carry an even-length hypothesis. -/
def oddEntries : List ℚ → List ℚ
  | _ :: y :: rest => y :: oddEntries rest
  | _ => []

/-- Model of detector_node._polygon_to_bbox_points: convert an Azure DI
polygon in a reported unit to PyMuPDF page points.  The branch order of
the source is kept: inch, then pixel names or both reported dimensions
non-zero, then centimeters, then pass-through. -/
def polygonToBboxPoints (polygon : List ℚ) (unit : Option String)
    (di_w di_h pdf_pt_w pdf_pt_h : ℚ) : BBox :=
  let xs := if polygon = [] then [0] else evenEntries polygon
  let ys := if polygon = [] then [0] else oddEntries polygon
  let min_x := listMin xs
  let max_x := listMax xs
  let min_y := listMin ys
  let max_y := listMax ys
  let u := pyLower (unit.getD "")
  if u = "inch" then
    { x0 := min_x * 72, y0 := min_y * 72, x1 := max_x * 72, y1 := max_y * 72 }
  else if u = "pixel" ∨ u = "pixelperinch" ∨ u = "pixelperinch2" ∨
      u = "pixel/unknown" ∨ (di_w ≠ 0 ∧ di_h ≠ 0) then
    let sx := if di_w ≠ 0 then pdf_pt_w / di_w else 1
    let sy := if di_h ≠ 0 then pdf_pt_h / di_h else 1
    { x0 := min_x * sx, y0 := min_y * sy, x1 := max_x * sx, y1 := max_y * sy }
  else if u = "cm" ∨ u = "centimeter" then
    let k : ℚ := 72 / 2.54
    { x0 := min_x * k, y0 := min_y * k, x1 := max_x * k, y1 := max_y * k }
  else
    { x0 := min_x, y0 := min_y, x1 := max_x, y1 := max_y }

/-- Word elements of one page, as built by the words_by_page grouping in
detector_node._second_llm_coordinate_mapping: iteration order over the
flat element list is preserved within each page. -/
def wordsOnPage (word_elements : List PdfElement) (p : Int) : List PdfElement :=
  word_elements.filter (fun w => w.page_number = p)

/-- Union bounding box of the boxes b :: bs, as computed by the merged-box
branch of detector_node._second_llm_coordinate_mapping: min of all x0/y0,
max of all x1/y1. -/
def mergeBBoxes (b : BBox) (bs : List BBox) : BBox :=
  { x0 := (bs.map (fun c => c.x0)).foldl min b.x0
    y0 := (bs.map (fun c => c.y0)).foldl min b.y0
    x1 := (bs.map (fun c => c.x1)).foldl max b.x1
    y1 := (bs.map (fun c => c.y1)).foldl max b.y1 }

/-- Deterministic post-processing of the second LLM reply in
detector_node._second_llm_coordinate_mapping: items with an empty
element-id list are skipped, matching word elements are looked up on the
item's page, items matching nothing are skipped, a single match keeps its
own box, several matches get the merged bounding box. -/
def mapItemsToRegions (items : List CoordItem) (word_elements : List PdfElement) :
    List SensItem :=
  items.filterMap (fun item =>
    if item.element_ids = [] then none
    else
      match (wordsOnPage word_elements item.page_number).filter
          (fun w => w.element_id ∈ item.element_ids) with
      | [] => none
      | w :: ws =>
        some { page_number := item.page_number
               content := item.content
               reason := item.reason
               bbox := if ws = [] then w.bbox else mergeBBoxes w.bbox (ws.map (fun c => c.bbox)) })

/-- Model of detector_node._second_llm_coordinate_mapping; the oracle is
the structured reply of the mapping LLM, none modelling the call raising
(caught locally, yielding []). -/
def secondLlmCoordinateMapping (llmOut : Option (List CoordItem))
    (word_elements : List PdfElement) : List SensItem :=
  match llmOut with
  | none => []
  | some items => mapItemsToRegions items word_elements

/-- Model of detector_node._first_llm_content_analysis: the oracle is the
structured reply of the content-analysis LLM; none models the call raising
(caught locally, yielding []). The page elements and guidance only shape
the prompt, hence do not appear deterministically. -/
def firstLlmContentAnalysis (llmOut : Option (List ContentItem)) : List ContentItem :=
  llmOut.getD []

/-- Model of detector_node._run_dual_llm_analysis: first LLM, early exit on
no findings, then second LLM coordinate mapping against the cached word
elements. -/
def runDualLlmAnalysis (word_elements : List PdfElement)
    (l1 : Option (List ContentItem)) (l2 : Option (List CoordItem)) : List SensItem :=
  let sensitive_content_items := firstLlmContentAnalysis l1
  if sensitive_content_items = [] then []
  else secondLlmCoordinateMapping l2 word_elements

/-- Model of detector_node._run_dual_ocr_parallel: the oracle carries the
two extraction results; none models an exception in the parallel
execution, which the source turns into a pair of empty lists. -/
def runDualOcrParallel (ocr : Option (List PdfElement × List PdfElement)) :
    List PdfElement × List PdfElement :=
  match ocr with
  | none => ([], [])
  | some pw => pw

/-- Model of detector_node._first_detection: run dual OCR; if either pass
is empty, return the state unchanged (the source only logs); otherwise
cache both element lists and store the dual-LLM analysis result. -/
def firstDetection (ocr : Option (List PdfElement × List PdfElement))
    (l1 : Option (List ContentItem)) (l2 : Option (List CoordItem))
    (st : PState) : PState :=
  let pw := runDualOcrParallel ocr
  if pw.1 = [] ∨ pw.2 = [] then st
  else
    { st with
      page_level_pdf_elements := pw.1
      word_level_pdf_elements := pw.2
      sensitive_data := runDualLlmAnalysis pw.2 l1 l2 }

/-- Model of detector_node._feedback_detection: reuse the cached element
lists and store the dual-LLM analysis result; the cache-missing guard of
the source is unreachable from run_detector but kept. -/
def feedbackDetection (l1 : Option (List ContentItem))
    (l2 : Option (List CoordItem)) (st : PState) : PState :=
  if st.page_level_pdf_elements = [] ∨ st.word_level_pdf_elements = [] then st
  else
    { st with
      sensitive_data :=
        runDualLlmAnalysis st.word_level_pdf_elements l1 l2 }

/-- Model of detector_node.run_detector: missing pdf path short-circuits;
an empty (or absent) cache on either modality selects first detection,
otherwise the feedback path reuses the cache. -/
def runDetector (ocr : Option (List PdfElement × List PdfElement))
    (l1 : Option (List ContentItem)) (l2 : Option (List CoordItem))
    (st : PState) : PState :=
  if st.pdf_path = "" then st
  else if st.word_level_pdf_elements = [] ∨ st.page_level_pdf_elements = [] then
    firstDetection ocr l1 l2 st
  else
    feedbackDetection l1 l2 st

/-- Model of evaluator_node.run_evaluator: initialize the loop counters if
absent, force the exit to the human gate at the ceiling, short-circuit on
empty guidance, then act on the verdict oracle (none models the LLM call
raising, which the source catches and turns into the human-gate route). -/
def runEvaluator (verdict : Option EvalVerdict) (st : PState) : PState :=
  let evaluator_cycles := st.evaluator_cycles.getD 0
  let max_cycles := st.max_evaluator_cycles.getD 3
  let st1 : PState :=
    { st with
      evaluator_cycles := some evaluator_cycles
      max_evaluator_cycles := some max_cycles }
  if max_cycles ≤ evaluator_cycles then
    { st1 with next_node := some "HumanInLoop" }
  else if st1.sensitive_data_description = [] then
    { st1 with next_node := some "HumanInLoop" }
  else
    match verdict with
    | none => { st1 with next_node := some "HumanInLoop" }
    | some res =>
      if res.issues_found = true ∧ res.feedback_message ≠ "" then
        { st1 with
          sensitive_data_description :=
            st1.sensitive_data_description ++ [res.feedback_message]
          evaluator_cycles := some (evaluator_cycles + 1)
          next_node := some "Detector" }
      else { st1 with next_node := some "HumanInLoop" }

/-- Model of hitl_node.run_hitl: the stored approval string is read with
default empty and whitespace-stripped; Yes routes to the redactor and No
back to the orchestrator, both clearing the stored decision; anything else
keeps the pipeline suspended in HumanInLoop. -/
def runHitl (st : PState) : PState :=
  let approval := pyStrip (st.user_approval.getD "")
  if approval = "Yes" then
    { st with next_node := some "Redactor", user_approval := none }
  else if approval = "No" then
    { st with next_node := some "Orchestrator", user_approval := none }
  else
    { st with next_node := some "HumanInLoop" }

/-- First-occurrence deduplication with an accumulator of already-seen
entries; pyDedup [] l models Python list(dict.fromkeys(l)), which keeps
the first occurrence of each entry in order. -/
def pyDedup (seen : List String) : List String → List String
  | [] => []
  | x :: xs => if x ∈ seen then pyDedup seen xs else x :: pyDedup (x :: seen) xs

/-- Model of orchestrator.orchestrator_node: an empty prompt routes
straight to the detector; otherwise the routing LLM reply (oracle; none
models the call raising, caught with a detector fallback) yields stripped
non-empty descriptions that are appended to the guidance list, and the
search branch is taken only when a non-blank query and the Searcher tag
are both present. -/
def orchestratorNode (llm : Option OrchestratorDecision) (st : PState) : PState :=
  if pyStrip st.user_prompt = "" then { st with next_node := some "Detector" }
  else
    match llm with
    | none => { st with next_node := some "Detector" }
    | some res =>
      let desc := res.sensitive_descriptions.filterMap
        (fun d => if d ≠ "" ∧ pyStrip d ≠ "" then some (pyStrip d) else none)
      let st1 :=
        if desc ≠ [] then
          { st with sensitive_data_description := st.sensitive_data_description ++ desc }
        else st
      if pyStrip (res.search_query.getD "") ≠ "" ∧ res.next_node = "Searcher" then
        { st1 with
          search_query := some (pyStrip (res.search_query.getD ""))
          next_node := some "Searcher" }
      else { st1 with next_node := some "Detector" }

/-- Model of searcher_node.run_searcher: a blank query returns the state
unchanged; otherwise the searcher result (oracle carrying the summarized
description list; none models the call raising, swallowed by the except)
is appended to the guidance list through list(dict.fromkeys(..)), and the
query is cleared. -/
def runSearcher (searchResult : Option (List String)) (st : PState) : PState :=
  if pyStrip (st.search_query.getD "") = "" then st
  else
    let st1 :=
      match searchResult with
      | none => st
      | some desc =>
        if desc ≠ [] then
          { st with
            sensitive_data_description :=
              pyDedup [] (st.sensitive_data_description ++ desc) }
        else st
    { st1 with search_query := none }

/-- Conditional router after the orchestrator in
orchestrator.build_sanitizer_graph. -/
def routeFromOrchestrator (st : PState) : String :=
  let nxt := pyStrip (st.next_node.getD "")
  if nxt = "Searcher" ∨ nxt = "Detector" then nxt else "Detector"

/-- Conditional router after the evaluator in
orchestrator.build_sanitizer_graph: any tag other than Detector or
Highlighter (in particular HumanInLoop) falls through to the highlighter,
whose fixed edge leads to the human gate. -/
def routeFromEvaluator (st : PState) : String :=
  let nxt := pyStrip (st.next_node.getD "")
  if nxt = "Detector" ∨ nxt = "Highlighter" then nxt else "Highlighter"

/-- Conditional router after the human gate in
orchestrator.build_sanitizer_graph. -/
def routeFromHitl (st : PState) : String :=
  let nxt := pyStrip (st.next_node.getD "")
  if nxt = "Redactor" then "Redactor"
  else if nxt = "Orchestrator" then "Orchestrator"
  else "HumanInLoop"

/-- Unconditional edges of the graph built in
orchestrator.build_sanitizer_graph. -/
def fixedEdge : String → Option String
  | "Searcher" => some "Detector"
  | "Detector" => some "Evaluator"
  | "Highlighter" => some "HumanInLoop"
  | "Redactor" => some "END"
  | _ => none

/-- Per-cycle oracles of one detector pass: dual OCR result, first LLM
reply, second LLM reply. -/
abbrev DetOracle :=
  Option (List PdfElement × List PdfElement) ×
    Option (List ContentItem) × Option (List CoordItem)

/-- Evaluator-driven detection loop of the compiled graph, entered at the
evaluator after a detection pass: the evaluator runs on the current state,
and while its routing tag is Detector the detector is re-run (with the
oracles of that cycle) and the loop continues; reruns counts detector
re-entries. Fuel bounds the unrolling of the cyclic graph. -/
def runDetectionLoop (dets : Nat → DetOracle) (verdicts : Nat → Option EvalVerdict) :
    Nat → PState → Nat → Nat × PState
  | 0, st, reruns => (reruns, st)
  | fuel + 1, st, reruns =>
    let st1 := runEvaluator (verdicts reruns) st
    if routeFromEvaluator st1 = "Detector" then
      runDetectionLoop dets verdicts fuel
        (runDetector (dets (reruns + 1)).1 (dets (reruns + 1)).2.1
          (dets (reruns + 1)).2.2 st1)
        (reruns + 1)
    else (reruns, st1)

/-- Characters after the last slash (accumulator reversed), the worker of
the os.path.basename model. -/
def lastComponentAux (cur : List Char) : List Char → List Char
  | [] => cur.reverse
  | c :: cs => if c = '/' then lastComponentAux [] cs else lastComponentAux (c :: cur) cs

/-- Model of os.path.basename for the slash-separated paths used here. -/
def pyBasename (p : String) : String :=
  String.mk (lastComponentAux [] p.data)

/-- Left-to-right non-overlapping removal of the literal ".pdf", modelling
the str.replace call of the redactor path code on that fixed pattern. -/
def removeDotPdf : List Char → List Char
  | '.' :: 'p' :: 'd' :: 'f' :: rest => removeDotPdf rest
  | c :: rest => c :: removeDotPdf rest
  | [] => []

/-- Removal of every occurrence of the literal "_AI_REDACTED", modelling
str.replace on that fixed pattern. -/
def removeAiRedacted : List Char → List Char
  | '_' :: 'A' :: 'I' :: '_' :: 'R' :: 'E' :: 'D' :: 'A' :: 'C' :: 'T' :: 'E' :: 'D' :: rest =>
    removeAiRedacted rest
  | c :: rest => c :: removeAiRedacted rest
  | [] => []

/-- Removal of every occurrence of the literal "_REDACTED", modelling
str.replace on that fixed pattern. -/
def removeRedacted : List Char → List Char
  | '_' :: 'R' :: 'E' :: 'D' :: 'A' :: 'C' :: 'T' :: 'E' :: 'D' :: rest => removeRedacted rest
  | c :: rest => c :: removeRedacted rest
  | [] => []

/-- Removal of every occurrence of the literal "_MANUAL_REDACTED",
modelling str.replace on that fixed pattern. -/
def removeManualRedacted : List Char → List Char
  | '_' :: 'M' :: 'A' :: 'N' :: 'U' :: 'A' :: 'L' :: '_' :: 'R' :: 'E' :: 'D' :: 'A' :: 'C' :: 'T' :: 'E' :: 'D' :: rest =>
    removeManualRedacted rest
  | c :: rest => c :: removeManualRedacted rest
  | [] => []

/-- Containment of the literal "_AI_REDACTED", modelling the Python
membership test on that fixed pattern. -/
def containsAiRedacted : List Char → Bool
  | '_' :: 'A' :: 'I' :: '_' :: 'R' :: 'E' :: 'D' :: 'A' :: 'C' :: 'T' :: 'E' :: 'D' :: _ => true
  | _ :: rest => containsAiRedacted rest
  | [] => false

/-- Base name of a file with all ".pdf" occurrences removed, as computed
by basename(path).replace in redactor_node and manual_redactor_node. -/
def stripDotPdf (s : String) : String :=
  String.mk (removeDotPdf s.data)

/-- Output directory of redacted artifacts,
os.path.join(os.getcwd(), "output", "redacted", name) with the cwd prefix
abstracted away. -/
def redactedDirJoin (name : String) : String :=
  "output/redacted/" ++ name

/-- Page validity as used by PyMuPDF doc[page_num] in
redactor_node._apply_redactions_to_pdf: negative indices count from the
end, anything outside raises. -/
def fitzPageOk (numPages : Nat) (idx : Int) : Prop :=
  -(numPages : Int) ≤ idx ∧ idx < (numPages : Int)

instance (numPages : Nat) (idx : Int) : Decidable (fitzPageOk numPages idx) :=
  instDecidableAnd

/-- Redact annotations added by the item loop of
redactor_node._apply_redactions_to_pdf, in order: one opaque box per item
on page page_number - 1; an out-of-range page raises, aborting the whole
call at that item. -/
def redactAnnots (numPages : Nat) : List SensItem → Except String (List (Int × BBox))
  | [] => Except.ok []
  | item :: rest =>
    let page_num := item.page_number - 1
    if fitzPageOk numPages page_num then
      (redactAnnots numPages rest).map (fun l => (page_num, item.bbox) :: l)
    else Except.error "page not in document"

/-- Model of redactor_node._apply_redactions_to_pdf with the default
output path: on success it returns the committed annotations and the
output path written; on a page error nothing is saved and the exception
reaches the caller (run_redactor does not catch it). -/
def applyRedactionsToPdf (numPages : Nat) (pdf_path : String)
    (sensitive_items : List SensItem) : Except String (List (Int × BBox) × String) :=
  let base_name := stripDotPdf (pyBasename pdf_path)
  let output_path := redactedDirJoin (base_name ++ "_AI_REDACTED.pdf")
  (redactAnnots numPages sensitive_items).map (fun l => (l, output_path))

/-- Model of manual_redactor_node.apply_manual_redactions. Result fields:
returned path, list of files written, list of redactions actually applied.
An empty rectangle list returns the input path untouched; an out-of-range
page (checked with 0 <= idx < len(doc)) is skipped with only a log line;
saveOk = false models an exception while applying or saving, which the
source catches, returning the input path with nothing written. -/
def applyManualRedactions (numPages : Nat) (saveOk : Bool) (pdf_path : String)
    (manual_rectangles : List SensItem) : String × List String × List (Int × BBox) :=
  if manual_rectangles = [] then (pdf_path, [], [])
  else
    let applied := manual_rectangles.filterMap (fun r =>
      let page_idx := r.page_number - 1
      if 0 ≤ page_idx ∧ page_idx < (numPages : Int) then some (page_idx, r.bbox)
      else none)
    let base_name := stripDotPdf (pyBasename pdf_path)
    let manual_redacted_path := redactedDirJoin (base_name ++ "_MANUAL_REDACTED.pdf")
    if saveOk then (manual_redacted_path, [manual_redacted_path], applied)
    else (pdf_path, [], applied)

/-- Model of manual_redactor_node.combine_ai_and_manual_redactions:
identity on an empty rectangle list or a missing AI artifact, otherwise
the manual pass runs on the AI-redacted file and the result is renamed to
the combined name when it exists under a different name. -/
def combineAiAndManualRedactions (numPages : Nat) (saveOk : Bool) (aiExists : Bool)
    (ai_redacted_path : String) (manual_rectangles : List SensItem) :
    String × List String :=
  if manual_rectangles = [] then (ai_redacted_path, [])
  else if aiExists = false then (ai_redacted_path, [])
  else
    let res := applyManualRedactions numPages saveOk ai_redacted_path manual_rectangles
    let temp_path := res.1
    let writes := res.2.1
    let ai_base_name := stripDotPdf (pyBasename ai_redacted_path)
    let clean_base :=
      if containsAiRedacted ai_base_name.data then
        String.mk (removeAiRedacted ai_base_name.data)
      else String.mk (removeManualRedacted (removeRedacted ai_base_name.data))
    let combined_path := redactedDirJoin (clean_base ++ "_COMBINED_REDACTED.pdf")
    let tempExists := temp_path ∈ writes ∨ (temp_path = ai_redacted_path ∧ aiExists)
    if tempExists ∧ temp_path ≠ combined_path then
      (combined_path, writes.map (fun w => if w = temp_path then combined_path else w))
    else (temp_path, writes)

/-- Capture of one newly drawn canvas rectangle in src/app.py (main): the
new manual item is dropped as a duplicate when an already-captured manual
rectangle on the same page has its top-left corner within strictly less
than 5 points in both coordinates, and appended otherwise. -/
def addManualRectangle (existing : List SensItem) (item : SensItem) : List SensItem :=
  if existing.any (fun e =>
      e.page_number = item.page_number ∧
      |e.bbox.x0 - item.bbox.x0| < 5 ∧ |e.bbox.y0 - item.bbox.y0| < 5) then existing
  else existing ++ [item]

/-- Spec-side mapper for the refinement check of the Coordinate Mapper
(spec section 4.4): for every content item, the matched word elements on
its page are collected and the region is the union bounding box (min of
all x0/y0, max of all x1/y1) over their boxes; an item matching no word
element is dropped silently. -/
def specUnionMapping (items : List CoordItem) (word_elements : List PdfElement) :
    List SensItem :=
  items.filterMap (fun item =>
    match (wordsOnPage word_elements item.page_number).filter
        (fun w => w.element_id ∈ item.element_ids) with
    | [] => none
    | w :: ws =>
      some { page_number := item.page_number
             content := item.content
             reason := item.reason
             bbox := mergeBBoxes w.bbox (ws.map (fun c => c.bbox)) })

/-- C3. Every region emitted by the coordinate-mapping stage carries the
componentwise union (min of all x0/y0, max of all x1/y1) of the boxes of
the matched cached word elements on the item's page, and an item whose
element-id list is empty or matches no cached word element on its page is
dropped silently: the code-side mapper of
detector_node._second_llm_coordinate_mapping coincides with the spec-side
union mapper on every input. -/
theorem coordinate_mapping_union_bbox (items : List CoordItem)
    (word_elements : List PdfElement) :
    mapItemsToRegions items word_elements = specUnionMapping items word_elements := by
  unfold mapItemsToRegions specUnionMapping
  induction items with
  | nil => rfl
  | cons item rest ih =>
    rw [List.filterMap_cons, List.filterMap_cons, ih]
    by_cases hids : item.element_ids = []
    · have hfil : (wordsOnPage word_elements item.page_number).filter
          (fun w => w.element_id ∈ item.element_ids) = [] := by
        simp [hids]
      simp [hids, hfil]
    · simp only [hids, if_neg, ite_false]
      cases hmat : (wordsOnPage word_elements item.page_number).filter
          (fun w => w.element_id ∈ item.element_ids) with
      | nil => rfl
      | cons w ws =>
        cases ws with
        | nil => rfl
        | cons w2 ws2 => simp

/-- C10. Applying the manual redaction pass with an empty region list is
the identity on the document: apply_manual_redactions returns the input
path with no file written and no redaction applied, and
combine_ai_and_manual_redactions returns the AI-redacted input path with
no file written when the manual region list is empty. -/
theorem manual_redaction_empty_identity :
    (∀ (numPages : Nat) (saveOk : Bool) (pdf_path : String),
      applyManualRedactions numPages saveOk pdf_path [] = (pdf_path, [], [])) ∧
    (∀ (numPages : Nat) (saveOk aiExists : Bool) (ai_redacted_path : String),
      combineAiAndManualRedactions numPages saveOk aiExists ai_redacted_path [] =
        (ai_redacted_path, [])) := by
  constructor
  · intro numPages saveOk pdf_path
    rfl
  · intro numPages saveOk aiExists ai_redacted_path
    rfl

/-- C9. When both cached extraction passes are present and non-empty, a
detector run performs no new extraction (the result does not depend on
the OCR oracle, which does not occur on the right-hand side) and the only
field it may replace is the sensitive-regions list, recomputed by the
dual-LLM analysis from the cached word elements (with the pdf-path guard
of run_detector kept). -/
theorem detector_cache_frame (ocr : Option (List PdfElement × List PdfElement))
    (l1 : Option (List ContentItem)) (l2 : Option (List CoordItem)) (st : PState)
    (hp : st.page_level_pdf_elements ≠ []) (hw : st.word_level_pdf_elements ≠ []) :
    runDetector ocr l1 l2 st =
      if st.pdf_path = "" then st
      else { st with sensitive_data :=
        runDualLlmAnalysis st.word_level_pdf_elements l1 l2 } := by
  unfold runDetector feedbackDetection
  by_cases hpdf : st.pdf_path = "" <;> simp [hpdf, hp, hw]

/-- Concrete word element used by witnesses, matching the SEVIS example of
the spec. -/
def wordN : PdfElement :=
  { element_id := 3, page_number := 1, content := "N0004705512"
    bbox := { x0 := 150, y0 := 200, x1 := 230, y1 := 212 } }

/-- Concrete page-level element used by witnesses. -/
def pageAll : PdfElement :=
  { element_id := 1, page_number := 1, content := "SEVIS ID: N0004705512"
    bbox := { x0 := 90, y0 := 200, x1 := 260, y1 := 212 } }

/-- Concrete state with both extraction caches populated. -/
def stCache : PState :=
  { pdf_path := "doc.pdf", sensitive_data_description := ["redact ids"]
    page_level_pdf_elements := [pageAll], word_level_pdf_elements := [wordN] }

/-- Witness for C9 at a concrete cached state. -/
theorem detector_cache_frame_witness :
    stCache.page_level_pdf_elements ≠ [] ∧ stCache.word_level_pdf_elements ≠ [] ∧
    runDetector (some ([], [])) none none stCache =
      if stCache.pdf_path = "" then stCache
      else { stCache with sensitive_data :=
        runDualLlmAnalysis stCache.word_level_pdf_elements none none } :=
  ⟨by simp [stCache], by simp [stCache],
    detector_cache_frame (some ([], [])) none none stCache
      (by simp [stCache]) (by simp [stCache])⟩

/-- Concrete fresh state (no caches yet) used by witnesses. -/
def stNoCache : PState :=
  { pdf_path := "doc.pdf", sensitive_data_description := ["redact names"] }

/-- C6 (counterexample). With the word-level pass succeeding but the
page-level pass returning an empty element list, the first detection does
not report any failure: run_detector returns the state bit-for-bit
unchanged (no error marker, no exception — only a log line), and the
graph's unconditional Detector-to-Evaluator edge lets the run continue;
this refutes the part of the claim stating that the run reports a hard
failure that is not silently tolerated. -/
theorem empty_ocr_run_continues :
    runDetector (some ([], [wordN])) none none stNoCache = stNoCache ∧
    stNoCache.sensitive_data = [] ∧
    fixedEdge "Detector" = some "Evaluator" := by
  refine ⟨?_, rfl, rfl⟩
  simp [runDetector, firstDetection, runDualOcrParallel, stNoCache]

/-- C6 (amended). On first detection (either cache empty or absent), if
either extraction pass fails or returns an empty element list, no
detection is attempted from the surviving modality alone: nothing is
cached, no sensitive regions are produced and the state is returned
unchanged; however the run is not reported as failed — the fixed graph
edge carries it on to the evaluator, the failure being only logged. -/
theorem empty_ocr_state_unchanged (ocr : Option (List PdfElement × List PdfElement))
    (l1 : Option (List ContentItem)) (l2 : Option (List CoordItem)) (st : PState)
    (hcache : st.word_level_pdf_elements = [] ∨ st.page_level_pdf_elements = [])
    (hocr : (runDualOcrParallel ocr).1 = [] ∨ (runDualOcrParallel ocr).2 = []) :
    runDetector ocr l1 l2 st = st ∧ fixedEdge "Detector" = some "Evaluator" := by
  refine ⟨?_, rfl⟩
  unfold runDetector firstDetection
  by_cases hpdf : st.pdf_path = "" <;> simp [hpdf, hcache, hocr]

/-- Witness for C6 (amended) at a concrete fresh state whose page-level
pass returns nothing. -/
theorem empty_ocr_state_unchanged_witness :
    (stNoCache.word_level_pdf_elements = [] ∨ stNoCache.page_level_pdf_elements = []) ∧
    ((runDualOcrParallel (some ([], [wordN]))).1 = [] ∨
      (runDualOcrParallel (some ([], [wordN]))).2 = []) ∧
    (runDetector (some ([], [wordN])) none none stNoCache = stNoCache ∧
      fixedEdge "Detector" = some "Evaluator") :=
  ⟨Or.inl rfl, Or.inl rfl,
    empty_ocr_state_unchanged (some ([], [wordN])) none none stNoCache
      (Or.inl rfl) (Or.inl rfl)⟩

/-- Concrete suspended state whose stored decision carries extra
whitespace. -/
def stPending : PState := { user_approval := some " Yes " }

/-- C2 (counterexample). The stored decision " Yes " is not the value
"Yes", yet run_hitl routes it to the Redactor because the source strips
whitespace before comparing; so the redaction stage can be entered on a
value other than the literal "Yes", refuting the claim as stated. -/
theorem hitl_strip_approves_nonliteral_yes :
    stPending.user_approval ≠ some "Yes" ∧
    runHitl stPending =
      { stPending with next_node := some "Redactor", user_approval := none } ∧
    routeFromHitl (runHitl stPending) = "Redactor" := by
  decide

/-- C2 (amended). run_hitl routes to the Redactor exactly when the
whitespace-stripped stored decision is "Yes" and back to the Orchestrator
exactly when it is "No", clearing the stored decision in both decided
cases before routing; any other value (including absent) leaves the
pipeline suspended in HumanInLoop, and route_from_hitl follows the tag so
the redaction stage is entered only on a stripped "Yes". -/
theorem hitl_routing_trimmed_decision (st : PState) :
    (pyStrip (st.user_approval.getD "") = "Yes" →
      runHitl st = { st with next_node := some "Redactor", user_approval := none }) ∧
    (pyStrip (st.user_approval.getD "") = "No" →
      runHitl st = { st with next_node := some "Orchestrator", user_approval := none }) ∧
    (pyStrip (st.user_approval.getD "") ≠ "Yes" →
      pyStrip (st.user_approval.getD "") ≠ "No" →
      runHitl st = { st with next_node := some "HumanInLoop" }) ∧
    (routeFromHitl (runHitl st) = "Redactor" ↔
      pyStrip (st.user_approval.getD "") = "Yes") ∧
    (routeFromHitl (runHitl st) = "Orchestrator" ↔
      pyStrip (st.user_approval.getD "") = "No") := by
  have hR : pyStrip "Redactor" = "Redactor" := rfl
  have hO : pyStrip "Orchestrator" = "Orchestrator" := rfl
  have hH : pyStrip "HumanInLoop" = "HumanInLoop" := rfl
  by_cases h1 : pyStrip (st.user_approval.getD "") = "Yes"
  · simp [runHitl, routeFromHitl, h1, hR, hO, hH]
  · by_cases h2 : pyStrip (st.user_approval.getD "") = "No"
    · simp [runHitl, routeFromHitl, h1, h2, hR, hO, hH]
    · simp [runHitl, routeFromHitl, h1, h2, hR, hO, hH]

/-- Witness for C2 (amended) at the concrete whitespace-decorated
approval. -/
theorem hitl_routing_trimmed_decision_witness :
    pyStrip (stPending.user_approval.getD "") = "Yes" ∧
    runHitl stPending =
      { stPending with next_node := some "Redactor", user_approval := none } :=
  ⟨by decide, (hitl_routing_trimmed_decision stPending).1 (by decide)⟩

/-- C5 (counterexample). A polygon reported in centimeters with known
non-zero page dimensions (10 by 10, against a 720 by 720 point page) is
scaled by the pixel branch (native divided by reported, here a factor of
72 per axis), not by 72 divided by 2.54: the pixel branch of
_polygon_to_bbox_points tests (di_w and di_h) before the unit is compared
with cm, so the claim's clause regardless of the reported dimensions is
refuted. -/
theorem cm_polygon_pixel_branch_precedence :
    polygonToBboxPoints [1, 1, 2, 2] (some "cm") 10 10 720 720 =
      { x0 := 72, y0 := 72, x1 := 144, y1 := 144 } ∧
    polygonToBboxPoints [1, 1, 2, 2] (some "cm") 10 10 720 720 ≠
      { x0 := 1 * (72 / 2.54), y0 := 1 * (72 / 2.54)
        x1 := 2 * (72 / 2.54), y1 := 2 * (72 / 2.54) } := by
  constructor
  · simp [polygonToBboxPoints, pyLower, listMin, listMax, evenEntries, oddEntries]
    norm_num
  · simp [polygonToBboxPoints, pyLower, listMin, listMax, evenEntries, oddEntries]
    norm_num

/-- C5 (amended). For a polygon whose reported unit is centimeters, the
normalizer returns the axis-aligned min/max box over the vertices with
every coordinate multiplied by 72 divided by 2.54 only when the reported
page dimensions are not both non-zero; when both reported dimensions are
non-zero the pixel branch takes precedence and scales each axis by the
native dimension divided by the reported one. The even-length hypothesis
reflects that the source raises on an odd flat coordinate list. -/
theorem cm_conversion_when_dims_zero (polygon : List ℚ) (u : String)
    (di_w di_h pdf_pt_w pdf_pt_h : ℚ)
    (_hlen : polygon.length % 2 = 0)
    (hu : u = "cm" ∨ u = "centimeter") :
    ((di_w = 0 ∨ di_h = 0) →
      polygonToBboxPoints polygon (some u) di_w di_h pdf_pt_w pdf_pt_h =
        { x0 := listMin (if polygon = [] then [0] else evenEntries polygon) * (72 / 2.54)
          y0 := listMin (if polygon = [] then [0] else oddEntries polygon) * (72 / 2.54)
          x1 := listMax (if polygon = [] then [0] else evenEntries polygon) * (72 / 2.54)
          y1 := listMax (if polygon = [] then [0] else oddEntries polygon) * (72 / 2.54) }) ∧
    (di_w ≠ 0 → di_h ≠ 0 →
      polygonToBboxPoints polygon (some u) di_w di_h pdf_pt_w pdf_pt_h =
        { x0 := listMin (if polygon = [] then [0] else evenEntries polygon) * (pdf_pt_w / di_w)
          y0 := listMin (if polygon = [] then [0] else oddEntries polygon) * (pdf_pt_h / di_h)
          x1 := listMax (if polygon = [] then [0] else evenEntries polygon) * (pdf_pt_w / di_w)
          y1 := listMax (if polygon = [] then [0] else oddEntries polygon) * (pdf_pt_h / di_h) }) := by
  constructor
  · intro hd
    rcases hu with rfl | rfl <;>
      rcases hd with rfl | rfl <;>
        simp [polygonToBboxPoints, pyLower]
  · intro hw hh
    rcases hu with rfl | rfl <;>
      simp [polygonToBboxPoints, pyLower, hw, hh]

/-- Witness for C5 (amended) at a concrete centimeter polygon with a zero
reported width. -/
theorem cm_conversion_when_dims_zero_witness :
    ([1, 1, 2, 2] : List ℚ).length % 2 = 0 ∧
    polygonToBboxPoints [1, 1, 2, 2] (some "cm") 0 10 720 720 =
      { x0 := listMin (if ([1, 1, 2, 2] : List ℚ) = [] then [0] else evenEntries [1, 1, 2, 2]) * (72 / 2.54)
        y0 := listMin (if ([1, 1, 2, 2] : List ℚ) = [] then [0] else oddEntries [1, 1, 2, 2]) * (72 / 2.54)
        x1 := listMax (if ([1, 1, 2, 2] : List ℚ) = [] then [0] else evenEntries [1, 1, 2, 2]) * (72 / 2.54)
        y1 := listMax (if ([1, 1, 2, 2] : List ℚ) = [] then [0] else oddEntries [1, 1, 2, 2]) * (72 / 2.54) } :=
  ⟨rfl,
    (cm_conversion_when_dims_zero [1, 1, 2, 2] "cm" 0 10 720 720 rfl (Or.inl rfl)).1
      (Or.inl rfl)⟩

/-- Concrete manual rectangle with top-left corner (100, 200) on page 2. -/
def rA : SensItem :=
  { page_number := 2, content := "[Manual Selection]"
    reason := "Manually selected sensitive area"
    bbox := { x0 := 100, y0 := 200, x1 := 130, y1 := 220 } }

/-- Concrete rectangle with top-left corner (102, 201) on page 2, within
the 5-point tolerance of rA. -/
def rB : SensItem :=
  { page_number := 2, content := "[Manual Selection]"
    reason := "Manually selected sensitive area"
    bbox := { x0 := 102, y0 := 201, x1 := 131, y1 := 221 } }

/-- Concrete rectangle with top-left corner (140, 200) on page 2, outside
the tolerance of rA in x. -/
def rC : SensItem :=
  { page_number := 2, content := "[Manual Selection]"
    reason := "Manually selected sensitive area"
    bbox := { x0 := 140, y0 := 200, x1 := 170, y1 := 220 } }

/-- Helper for C4 and C8: with every page index valid, the redact loop of
_apply_redactions_to_pdf adds one annotation per item, in order, with no
deduplication. -/
theorem redactAnnots_all_valid (numPages : Nat) (items : List SensItem)
    (h : ∀ it ∈ items, fitzPageOk numPages (it.page_number - 1)) :
    redactAnnots numPages items =
      Except.ok (items.map (fun it => (it.page_number - 1, it.bbox))) := by
  induction items with
  | nil => rfl
  | cons it rest ih =>
    have hit := h it (List.mem_cons_self it rest)
    have hrest := ih (fun x hx => h x (List.mem_cons_of_mem it hx))
    simp [redactAnnots, hit, hrest, Except.map]

/-- C4 (counterexample). Two regions on page 2 whose top-left corners
(100, 200) and (102, 201) differ by less than 5 points in both
coordinates are BOTH committed by _apply_redactions_to_pdf: the function
performs no deduplication before committing, refuting the claim that only
one of them is committed. -/
theorem redactor_commits_near_duplicates :
    (|rA.bbox.x0 - rB.bbox.x0| < 5 ∧ |rA.bbox.y0 - rB.bbox.y0| < 5) ∧
    applyRedactionsToPdf 3 "doc.pdf" [rA, rB] =
      Except.ok ([(1, rA.bbox), (1, rB.bbox)], "output/redacted/doc_AI_REDACTED.pdf") := by
  constructor
  · constructor <;> · simp [rA, rB]; norm_num
  · rfl

/-- C4 (amended). The less-than-5-points top-left deduplication exists
only in the canvas-capture step of src/app.py, where a newly drawn manual
rectangle is dropped when an already-captured manual rectangle on the
same page is within the tolerance in both coordinates (the spec examples
hold there: (102, 201) is dropped against (100, 200) while (140, 200) is
kept); the committing function itself commits every region it is given,
one annotation per region, with no deduplication. -/
theorem canvas_dedup_and_commit_all :
    (∀ (numPages : Nat) (pdf_path : String) (items : List SensItem),
      (∀ it ∈ items, fitzPageOk numPages (it.page_number - 1)) →
      applyRedactionsToPdf numPages pdf_path items =
        Except.ok (items.map (fun it => (it.page_number - 1, it.bbox)),
          redactedDirJoin (stripDotPdf (pyBasename pdf_path) ++ "_AI_REDACTED.pdf"))) ∧
    addManualRectangle [rA] rB = [rA] ∧
    addManualRectangle [rA] rC = [rA, rC] := by
  refine ⟨?_, ?_, ?_⟩
  · intro numPages pdf_path items h
    unfold applyRedactionsToPdf
    rw [redactAnnots_all_valid numPages items h]
    rfl
  · simp [addManualRectangle, rA, rB]
    norm_num
  · simp [addManualRectangle, rA, rC]
    norm_num

/-- Witness for C4 (amended): both concrete near-duplicate regions are
committed on the valid page range. -/
theorem canvas_dedup_and_commit_all_witness :
    applyRedactionsToPdf 3 "doc.pdf" [rA, rB] =
      Except.ok ([rA, rB].map (fun it => (it.page_number - 1, it.bbox)),
        redactedDirJoin (stripDotPdf (pyBasename "doc.pdf") ++ "_AI_REDACTED.pdf")) :=
  canvas_dedup_and_commit_all.1 3 "doc.pdf" [rA, rB] (by decide)

/-- Concrete manual rectangle pointing at page 5 (out of range in a
one-page document). -/
def rBad : SensItem :=
  { page_number := 5, content := "[Manual Selection]"
    reason := "Manually selected sensitive area"
    bbox := { x0 := 10, y0 := 10, x1 := 40, y1 := 30 } }

/-- C8 (counterexample). Running apply_manual_redactions on a one-page
document with a single region whose page index is invalid does not report
a failure: the invalid region is skipped with only a log line (no
redaction is applied), the output file is still written and its path is
returned as a successful run, refuting the claim that an invalid page
index is reported to the caller as a failed run. -/
theorem manual_redactor_invalid_page_succeeds :
    applyManualRedactions 1 true "doc.pdf" [rBad] =
      ("output/redacted/doc_MANUAL_REDACTED.pdf",
        ["output/redacted/doc_MANUAL_REDACTED.pdf"], []) := by
  rfl

/-- C8 (amended). Failure handling differs between the two redaction
passes: in the AI pass (_apply_redactions_to_pdf), any region with an
invalid page index raises, the error reaches the caller and no output
file is written, so the source document keeps all its content; in the
manual pass (apply_manual_redactions), regions with invalid page indices
are silently skipped while the rest proceed, and an I/O failure while
applying or saving is caught, returning the original input path with
nothing written — the run is not reported as failed there. In every
failure case no file is written at all. -/
theorem redaction_failure_modes :
    (∀ (numPages : Nat) (pdf_path : String) (items : List SensItem),
      (∃ it ∈ items, ¬ fitzPageOk numPages (it.page_number - 1)) →
      applyRedactionsToPdf numPages pdf_path items =
        Except.error "page not in document") ∧
    (∀ (numPages : Nat) (pdf_path : String) (rects : List SensItem),
      (applyManualRedactions numPages false pdf_path rects).1 = pdf_path ∧
      (applyManualRedactions numPages false pdf_path rects).2.1 = []) ∧
    (∀ (numPages : Nat) (saveOk : Bool) (pdf_path : String) (rects : List SensItem),
      (∀ r ∈ rects, ¬ (0 ≤ r.page_number - 1 ∧ r.page_number - 1 < (numPages : Int))) →
      (applyManualRedactions numPages saveOk pdf_path rects).2.2 = []) := by
  refine ⟨?_, ?_, ?_⟩
  · intro numPages pdf_path items h
    have herr : redactAnnots numPages items = Except.error "page not in document" := by
      induction items with
      | nil => simp at h
      | cons it rest ih =>
        by_cases hv : fitzPageOk numPages (it.page_number - 1)
        · have hrest : ∃ x ∈ rest, ¬ fitzPageOk numPages (x.page_number - 1) := by
            rcases h with ⟨x, hx, hnx⟩
            rcases List.mem_cons.mp hx with rfl | hxr
            · exact absurd hv hnx
            · exact ⟨x, hxr, hnx⟩
          simp [redactAnnots, hv, ih hrest, Except.map]
        · simp [redactAnnots, hv]
    unfold applyRedactionsToPdf
    rw [herr]
    rfl
  · intro numPages pdf_path rects
    by_cases hr : rects = [] <;> simp [applyManualRedactions, hr]
  · intro numPages saveOk pdf_path rects h
    have happ : rects.filterMap (fun r =>
        if 0 ≤ r.page_number - 1 ∧ r.page_number - 1 < (numPages : Int) then
          some (r.page_number - 1, r.bbox)
        else none) = [] :=
      List.filterMap_eq_nil_iff.mpr (fun r hrr => by rw [if_neg (h r hrr)])
    by_cases hr : rects = []
    · simp [applyManualRedactions, hr]
    · by_cases hs : saveOk <;>
        simp only [applyManualRedactions, if_neg hr, hs, if_true, if_false,
          Bool.false_eq_true, ite_true, ite_false] <;>
      exact happ

/-- Witness for C8 (amended): the concrete out-of-range region makes the
AI pass raise with nothing written. -/
theorem redaction_failure_modes_witness :
    ¬ fitzPageOk 1 (rBad.page_number - 1) ∧
    applyRedactionsToPdf 1 "doc.pdf" [rBad] =
      Except.error "page not in document" :=
  ⟨by decide,
    redaction_failure_modes.1 1 "doc.pdf" [rBad]
      ⟨rBad, by simp, by decide⟩⟩

/-- Concrete state whose guidance list holds a duplicate entry, with a
pending search query. -/
def stDupGuidance : PState :=
  { sensitive_data_description := ["a", "a"], search_query := some "privacy rules" }

/-- C7 (counterexample). On a state whose guidance list is ["a", "a"],
the searcher with a result containing "a" rewrites the list through
list(dict.fromkeys(..)) to ["a"]: the previous list is not a prefix of
the new one and the length decreases from 2 to 1, refuting the claim that
every guidance update only appends. -/
theorem searcher_dedup_shrinks_guidance :
    (runSearcher (some ["a"]) stDupGuidance).sensitive_data_description = ["a"] ∧
    (runSearcher (some ["a"]) stDupGuidance).sensitive_data_description.take
        stDupGuidance.sensitive_data_description.length ≠
      stDupGuidance.sensitive_data_description ∧
    (runSearcher (some ["a"]) stDupGuidance).sensitive_data_description.length <
      stDupGuidance.sensitive_data_description.length := by
  refine ⟨rfl, ?_, ?_⟩ <;> decide

/-- Helper for C7: pyDedup keeps a duplicate-free, unseen base list as a
prefix of its output on the extended list. -/
theorem pyDedup_extends (l₂ : List String) :
    ∀ (l₁ seen : List String), l₁.Nodup → (∀ x ∈ l₁, x ∉ seen) →
      ∃ t, l₁ ++ t = pyDedup seen (l₁ ++ l₂) := by
  intro l₁
  induction l₁ with
  | nil => intro seen _ _; exact ⟨pyDedup seen l₂, rfl⟩
  | cons x xs ih =>
    intro seen hnd hns
    have hx : x ∉ seen := hns x (List.mem_cons_self x xs)
    have hnd2 := List.nodup_cons.mp hnd
    obtain ⟨t, ht⟩ := ih (x :: seen) hnd2.2 (fun y hy hmem => by
      rcases List.mem_cons.mp hmem with rfl | hmem2
      · exact hnd2.1 hy
      · exact hns y (List.mem_cons_of_mem x hy) hmem2)
    refine ⟨t, ?_⟩
    have hstep : pyDedup seen (x :: (xs ++ l₂)) = x :: pyDedup (x :: seen) (xs ++ l₂) := by
      simp [pyDedup, hx]
    simp only [List.cons_append]
    rw [hstep, ← ht]

/-- C7 (amended). The Orchestrator and the Evaluator only append to the
guidance list: for every input state, the previous list is a prefix of
the new one and the length is non-decreasing. The Searcher appends and
then removes duplicate entries keeping first occurrences, so the same
prefix and length properties hold only when the previous guidance list is
duplicate-free (a duplicated prior list can shrink, per the
counterexample). -/
theorem guidance_append_only_amended :
    (∀ (llm : Option OrchestratorDecision) (st : PState),
      (orchestratorNode llm st).sensitive_data_description.take
          st.sensitive_data_description.length = st.sensitive_data_description ∧
      st.sensitive_data_description.length ≤
        (orchestratorNode llm st).sensitive_data_description.length) ∧
    (∀ (v : Option EvalVerdict) (st : PState),
      (runEvaluator v st).sensitive_data_description.take
          st.sensitive_data_description.length = st.sensitive_data_description ∧
      st.sensitive_data_description.length ≤
        (runEvaluator v st).sensitive_data_description.length) ∧
    (∀ (res : Option (List String)) (st : PState),
      st.sensitive_data_description.Nodup →
      (runSearcher res st).sensitive_data_description.take
          st.sensitive_data_description.length = st.sensitive_data_description ∧
      st.sensitive_data_description.length ≤
        (runSearcher res st).sensitive_data_description.length) := by
  have hpre : ∀ (old new : List String), (∃ t, old ++ t = new) →
      new.take old.length = old ∧ old.length ≤ new.length := by
    rintro old new ⟨t, rfl⟩
    exact ⟨List.take_left old t, by simp⟩
  refine ⟨?_, ?_, ?_⟩
  · intro llm st
    refine hpre _ _ ?_
    unfold orchestratorNode
    by_cases hp : pyStrip st.user_prompt = ""
    · exact ⟨[], by simp [hp]⟩
    · rw [if_neg hp]
      cases llm with
      | none => exact ⟨[], by simp⟩
      | some res =>
        dsimp only
        split <;> split <;> first
          | exact ⟨_, rfl⟩
          | exact ⟨[], by simp⟩
  · intro v st
    refine hpre _ _ ?_
    unfold runEvaluator
    by_cases h1 : st.max_evaluator_cycles.getD 3 ≤ st.evaluator_cycles.getD 0
    · exact ⟨[], by simp [h1]⟩
    · by_cases h2 : st.sensitive_data_description = []
      · exact ⟨[], by simp [h1, h2]⟩
      · cases v with
        | none => exact ⟨[], by simp [h1, h2]⟩
        | some res =>
          by_cases h3 : res.issues_found = true ∧ res.feedback_message ≠ ""
          · exact ⟨[res.feedback_message], by simp [h1, h2, h3]⟩
          · exact ⟨[], by simp [h1, h2, h3]⟩
  · intro res st hnd
    refine hpre _ _ ?_
    unfold runSearcher
    by_cases hq : pyStrip (st.search_query.getD "") = ""
    · exact ⟨[], by simp [hq]⟩
    · cases res with
      | none => exact ⟨[], by simp [hq]⟩
      | some desc =>
        by_cases hd : desc = []
        · exact ⟨[], by simp [hq, hd]⟩
        · obtain ⟨t, ht⟩ :=
            pyDedup_extends desc st.sensitive_data_description [] hnd (by simp)
          exact ⟨t, by simp [hq, hd, ht]⟩

/-- Witness for C7 (amended): a duplicate-free guidance list stays a
prefix through the searcher at a concrete query and result. -/
theorem guidance_append_only_amended_witness :
    (stNoCache.sensitive_data_description.Nodup) ∧
    ((runSearcher (some ["mask account numbers"])
        { stNoCache with search_query := some "banking rules" }).sensitive_data_description.take
          ({ stNoCache with search_query := some "banking rules" } :
            PState).sensitive_data_description.length =
        ({ stNoCache with search_query := some "banking rules" } :
          PState).sensitive_data_description ∧
      ({ stNoCache with search_query := some "banking rules" } :
          PState).sensitive_data_description.length ≤
        (runSearcher (some ["mask account numbers"])
          { stNoCache with search_query := some "banking rules" }).sensitive_data_description.length) :=
  ⟨by decide,
    guidance_append_only_amended.2.2 (some ["mask account numbers"])
      { stNoCache with search_query := some "banking rules" } (by decide)⟩

/-- Helper for C1: a detector run never touches the guidance list or the
loop counters, whichever of its branches is taken. -/
theorem runDetector_frame (ocr : Option (List PdfElement × List PdfElement))
    (l1 : Option (List ContentItem)) (l2 : Option (List CoordItem)) (st : PState) :
    (runDetector ocr l1 l2 st).sensitive_data_description = st.sensitive_data_description ∧
    (runDetector ocr l1 l2 st).evaluator_cycles = st.evaluator_cycles ∧
    (runDetector ocr l1 l2 st).max_evaluator_cycles = st.max_evaluator_cycles := by
  by_cases h1 : st.pdf_path = ""
  · simp [runDetector, h1]
  · by_cases h2 : st.word_level_pdf_elements = [] ∨ st.page_level_pdf_elements = []
    · by_cases h3 : (runDualOcrParallel ocr).1 = [] ∨ (runDualOcrParallel ocr).2 = [] <;>
        simp [runDetector, firstDetection, h1, h2, h3]
    · by_cases h4 : st.page_level_pdf_elements = [] ∨ st.word_level_pdf_elements = [] <;>
        simp [runDetector, feedbackDetection, h1, h2, h4]

/-- Helper for C1: at or above the ceiling the evaluator routes straight
to the human gate, only normalizing the counter fields. -/
theorem runEvaluator_ceiling (v : Option EvalVerdict) (st : PState)
    (h : st.max_evaluator_cycles.getD 3 ≤ st.evaluator_cycles.getD 0) :
    runEvaluator v st =
      { st with
        evaluator_cycles := some (st.evaluator_cycles.getD 0)
        max_evaluator_cycles := some (st.max_evaluator_cycles.getD 3)
        next_node := some "HumanInLoop" } := by
  unfold runEvaluator
  rw [if_pos h]

/-- Helper for C1: below the ceiling, with guidance present and a verdict
reporting issues with non-empty feedback, the evaluator appends the
feedback, increments the counter and routes back to the detector. -/
theorem runEvaluator_issues (res : EvalVerdict) (st : PState)
    (hc : st.evaluator_cycles.getD 0 < st.max_evaluator_cycles.getD 3)
    (hg : st.sensitive_data_description ≠ [])
    (hi : res.issues_found = true) (hf : res.feedback_message ≠ "") :
    runEvaluator (some res) st =
      { st with
        sensitive_data_description :=
          st.sensitive_data_description ++ [res.feedback_message]
        evaluator_cycles := some (st.evaluator_cycles.getD 0 + 1)
        max_evaluator_cycles := some (st.max_evaluator_cycles.getD 3)
        next_node := some "Detector" } := by
  unfold runEvaluator
  rw [if_neg (not_le.mpr hc)]
  dsimp only
  rw [if_neg hg, if_pos ⟨hi, hf⟩]

/-- Helper for C1: the ceiling invariant of one evaluator entry — a
counter at most the ceiling on entry is still at most the ceiling on
exit. -/
theorem runEvaluator_cycles_le (v : Option EvalVerdict) (st : PState)
    (h : st.evaluator_cycles.getD 0 ≤ st.max_evaluator_cycles.getD 3) :
    (runEvaluator v st).evaluator_cycles.getD 0 ≤
      (runEvaluator v st).max_evaluator_cycles.getD 3 := by
  by_cases h1 : st.max_evaluator_cycles.getD 3 ≤ st.evaluator_cycles.getD 0
  · rw [runEvaluator_ceiling v st h1]
    simpa using h
  · unfold runEvaluator
    rw [if_neg h1]
    dsimp only
    by_cases h2 : st.sensitive_data_description = []
    · rw [if_pos h2]
      simpa using h
    · rw [if_neg h2]
      cases v with
      | none => simpa using h
      | some res =>
        dsimp only
        by_cases h3 : res.issues_found = true ∧ res.feedback_message ≠ ""
        · rw [if_pos h3]
          simp only [Option.getD_some]
          omega
        · rw [if_neg h3]
          simpa using h

/-- Helper for C1: running the detection loop from a state whose counter
is d short of a ceiling of 3, under always-issues verdicts, performs
exactly d more detector re-entries and ends at the human-gate route with
the counter saturated at 3. -/
theorem detection_loop_from (dets : Nat → DetOracle)
    (verdicts : Nat → Option EvalVerdict)
    (hv : ∀ i, ∃ v, verdicts i = some v ∧
      v.issues_found = true ∧ v.feedback_message ≠ "") :
    ∀ (d fuel : Nat) (st : PState) (reruns : Nat),
      st.sensitive_data_description ≠ [] →
      st.max_evaluator_cycles.getD 3 = 3 →
      st.evaluator_cycles.getD 0 + d = 3 →
      d + 1 ≤ fuel →
      (runDetectionLoop dets verdicts fuel st reruns).1 = reruns + d ∧
      (runDetectionLoop dets verdicts fuel st reruns).2.next_node = some "HumanInLoop" ∧
      (runDetectionLoop dets verdicts fuel st reruns).2.evaluator_cycles = some 3 ∧
      (runDetectionLoop dets verdicts fuel st reruns).2.max_evaluator_cycles = some 3 := by
  intro d
  induction d with
  | zero =>
    intro fuel st reruns hg hmax hcyc hfuel
    obtain ⟨f, rfl⟩ : ∃ f, fuel = f + 1 := ⟨fuel - 1, by omega⟩
    have hceil : st.max_evaluator_cycles.getD 3 ≤ st.evaluator_cycles.getD 0 := by omega
    have hst1 := runEvaluator_ceiling (verdicts reruns) st hceil
    have hroute : routeFromEvaluator (runEvaluator (verdicts reruns) st) = "Highlighter" := by
      rw [hst1]
      rfl
    simp only [runDetectionLoop, hroute]
    rw [if_neg (by decide : ¬(("Highlighter" : String) = "Detector"))]
    rw [hst1]
    refine ⟨by simp, rfl, ?_, by simp [hmax]⟩
    simp only [Option.some.injEq]
    omega
  | succ d ih =>
    intro fuel st reruns hg hmax hcyc hfuel
    obtain ⟨f, rfl⟩ : ∃ f, fuel = f + 1 := ⟨fuel - 1, by omega⟩
    obtain ⟨v, hvr, hvi, hvf⟩ := hv reruns
    have hc : st.evaluator_cycles.getD 0 < st.max_evaluator_cycles.getD 3 := by omega
    have hst1 := runEvaluator_issues v st hc hg hvi hvf
    have hroute : routeFromEvaluator (runEvaluator (verdicts reruns) st) = "Detector" := by
      rw [hvr, hst1]
      rfl
    simp only [runDetectionLoop, hroute, if_pos]
    set st2 := runDetector (dets (reruns + 1)).1 (dets (reruns + 1)).2.1
      (dets (reruns + 1)).2.2 (runEvaluator (verdicts reruns) st) with hst2
    have hframe := runDetector_frame (dets (reruns + 1)).1 (dets (reruns + 1)).2.1
      (dets (reruns + 1)).2.2 (runEvaluator (verdicts reruns) st)
    have hg2 : st2.sensitive_data_description ≠ [] := by
      rw [hst2, hframe.1, hvr, hst1]
      simp
    have hmax2 : st2.max_evaluator_cycles.getD 3 = 3 := by
      rw [hst2, hframe.2.2, hvr, hst1]
      simp [hmax]
    have hcyc2 : st2.evaluator_cycles.getD 0 + d = 3 := by
      rw [hst2, hframe.2.1, hvr, hst1]
      simp
      omega
    obtain ⟨r1, r2, r3, r4⟩ := ih f st2 (reruns + 1) hg2 hmax2 hcyc2 (by omega)
    refine ⟨?_, r2, r3, r4⟩
    rw [r1]
    omega

/-- C1. In a fresh run with the default ceiling of 3, if every evaluator
verdict reports issues_found with a non-empty feedback message, the
detection stage is re-entered exactly 3 times after the initial
detection, the evaluator then routes to the human gate (its HumanInLoop
tag falls through the evaluator router to the Highlighter preview, whose
fixed edge leads to HumanInLoop), the loop counter ends saturated at the
ceiling (evaluator_cycles = max = 3), and one evaluator entry never
pushes the counter above the ceiling. -/
theorem evaluator_loop_ceiling_three_reruns (dets : Nat → DetOracle)
    (verdicts : Nat → Option EvalVerdict) (st : PState) (fuel : Nat)
    (hv : ∀ i, ∃ v, verdicts i = some v ∧
      v.issues_found = true ∧ v.feedback_message ≠ "")
    (hg : st.sensitive_data_description ≠ [])
    (hc0 : st.evaluator_cycles.getD 0 = 0)
    (hm : st.max_evaluator_cycles.getD 3 = 3)
    (hfuel : 4 ≤ fuel) :
    (runDetectionLoop dets verdicts fuel st 0).1 = 3 ∧
    (runDetectionLoop dets verdicts fuel st 0).2.next_node = some "HumanInLoop" ∧
    (runDetectionLoop dets verdicts fuel st 0).2.evaluator_cycles = some 3 ∧
    (runDetectionLoop dets verdicts fuel st 0).2.max_evaluator_cycles = some 3 ∧
    routeFromEvaluator (runDetectionLoop dets verdicts fuel st 0).2 = "Highlighter" ∧
    fixedEdge "Highlighter" = some "HumanInLoop" ∧
    (∀ (v : Option EvalVerdict) (s : PState),
      s.evaluator_cycles.getD 0 ≤ s.max_evaluator_cycles.getD 3 →
      (runEvaluator v s).evaluator_cycles.getD 0 ≤
        (runEvaluator v s).max_evaluator_cycles.getD 3) := by
  obtain ⟨r1, r2, r3, r4⟩ :=
    detection_loop_from dets verdicts hv 3 fuel st 0 hg hm (by omega) (by omega)
  refine ⟨by simpa using r1, r2, r3, r4, ?_, rfl, runEvaluator_cycles_le⟩
  unfold routeFromEvaluator
  rw [r2]
  rfl

/-- Constant detector oracles used by the C1 witness. -/
def detsW : Nat → DetOracle := fun _ => (none, none, none)

/-- Always-issues verdict oracle used by the C1 witness. -/
def verdictsW : Nat → Option EvalVerdict := fun _ =>
  some { issues_found := true, missing_sensitive_data := []
         incorrect_detections := [], feedback_message := "add more" }

/-- Witness for C1 at a concrete fresh state, always-issues verdicts and
fuel 4. -/
theorem evaluator_loop_ceiling_three_reruns_witness :
    stNoCache.sensitive_data_description ≠ [] ∧
    (runDetectionLoop detsW verdictsW 4 stNoCache 0).1 = 3 ∧
    (runDetectionLoop detsW verdictsW 4 stNoCache 0).2.next_node = some "HumanInLoop" ∧
    (runDetectionLoop detsW verdictsW 4 stNoCache 0).2.evaluator_cycles = some 3 :=
  ⟨by simp [stNoCache],
    (evaluator_loop_ceiling_three_reruns detsW verdictsW stNoCache 4
      (fun i => ⟨_, rfl, rfl, by decide⟩) (by simp [stNoCache]) rfl rfl
      (by omega)).1,
    (evaluator_loop_ceiling_three_reruns detsW verdictsW stNoCache 4
      (fun i => ⟨_, rfl, rfl, by decide⟩) (by simp [stNoCache]) rfl rfl
      (by omega)).2.1,
    (evaluator_loop_ceiling_three_reruns detsW verdictsW stNoCache 4
      (fun i => ⟨_, rfl, rfl, by decide⟩) (by simp [stNoCache]) rfl rfl
      (by omega)).2.2.1⟩
